import Mathlib

/-!
Shallow embedding of the AID-Emulator core (Bradley-Blya/AID-Emulator).

Source files embedded here:
- Parameters.js (src/unnamed/part_000): shared world state, story-card registry
  and its add/remove/update operations.
- Loader.js, unnamed current version (src/unnamed/part_001): regex-based
  instrumentation of the hook source that rewrites the trailing
  call of the form modifier(text) into a return statement.
- Loader.js, older version (src/emulator/Loader.js): append-based
  instrumentation that adds a capture assignment after the hook source.
- emulator.js (src/unnamed/part_002): the Emulator class, in particular
  init, handleInput, processInput, processOutput, processContext,
  safeCallHook and getHookGlobals.

Modelling conventions:
- JS values returned by a hook are modelled by the inductive JSVal, keeping
  exactly the distinctions the emulator inspects: the truthiness test and
  the check that the field named text holds a string.
- A hook invocation either throws or returns a value (HookOutcome); the
  loader pipeline behind runInputModifier / runContextModifier /
  runOutputModifier is summarised, per hook name, as a function from the
  injected text to a HookOutcome. Hooks mutating shared bindings in place
  is outside the modelled fragment.
- JS false returned by addStoryCard is modelled as none, a returned index
  as some i. A thrown JS error is modelled with Except and JsError, which
  separates a generic Error from a RangeError so that the error class used
  by the code is visible.
- DOM wiring, rendering and logging are side-effect free projections in the
  source and are dropped; the argument that handleInput hands to
  renderer_updateMainView is kept as the viewContext component of the turn
  result, and the string handed to the contextModifier hook is kept as the
  hookRawContext component.
-/

/-- The value of an object property named text, as far as the emulator
inspects it: absent (reads as undefined), a string, a number, or some
other non-string value. -/
inductive JSProp where
  | pundef
  | pstr (s : String)
  | pnum (n : Int)
  | pother
deriving DecidableEq, Repr

/-- A JS value as far as the emulator inspects it: undefined, null, a
string, a number, or an object whose property named text is `t`. -/
inductive JSVal where
  | vundef
  | vnull
  | vstr (s : String)
  | vnum (n : Int)
  | vobjText (t : JSProp)
deriving DecidableEq, Repr

/-- Outcome of executing one hook unit: the assembled sandbox function
either throws (load failure, compile or runtime exception) or returns a
captured value. -/
inductive HookOutcome where
  | throws (msg : String)
  | returns (v : JSVal)
deriving DecidableEq, Repr

/-- One hook, as the turn engine sees it: from the injected text to the
outcome of the load-and-execute pipeline. -/
def Hook : Type := String → HookOutcome

/-- Lines 164-170 of emulator.js (part_002), the shape check inside
safeCallHook: `if (result and typeof result.text === "string") return
result.text;` else fall through to `return arg`. Only an object whose
text property holds a string passes; strings, numbers, null, undefined
and objects without a string text property all fall back to `arg`.
(For null and undefined the guard short-circuits before reading the
property; for every other value the property read yields a non-string.) -/
def captureText (result : JSVal) (arg : String) : String :=
  match result with
  | JSVal.vobjText (JSProp.pstr s) => s
  | _ => arg

/-- safeCallHook from emulator.js (part_002 lines 145-176): call the hook,
catch any thrown error and fall back to the argument, and apply the
result-shape check of captureText to a returned value. -/
def safeCallHook (hook : Hook) (arg : String) : String :=
  match hook arg with
  | HookOutcome.throws _ => arg
  | HookOutcome.returns v => captureText v arg

/-- A history entry as pushed by emulator.js: an object with a mode
field and a text field. -/
structure HistoryEntry where
  mode : String
  text : String
deriving DecidableEq, Repr

/-- A story card from Parameters.js (part_000): id, keys, entry, type. -/
structure StoryCard where
  id : Nat
  keys : List String
  entry : String
  type : String
deriving DecidableEq, Repr

/-- A thrown JS error, separating the two classes the spec mentions:
`error` models `new Error(msg)` and `rangeError` models
`new RangeError(msg)`. Parameters.js only ever constructs the former. -/
inductive JsError where
  | error (msg : String)
  | rangeError (msg : String)
deriving DecidableEq, Repr

/-- addStoryCard from Parameters.js (part_000 lines 57-70). The duplicate
test serialises the key list with JSON.stringify and compares strings;
on lists of strings that comparison coincides with structural,
order-sensitive list equality, which is how it is modelled. On a
duplicate the function returns false (modelled none) and leaves the
registry as it was; otherwise it pushes a card with id equal to the old
length and returns the new last index, which equals the old length. -/
def addStoryCard (keys : List String) (entry : String) (type : String)
    (storyCards : List StoryCard) : Option Nat × List StoryCard :=
  if storyCards.any (fun card => card.keys == keys) then
    (none, storyCards)
  else
    (some storyCards.length,
      storyCards ++ [{ id := storyCards.length, keys := keys,
                       entry := entry, type := type }])

/-- removeStoryCard from Parameters.js (part_000 lines 73-78): throws
`new Error("Story card does not exist")` when the index is out of bounds,
otherwise splices one element out at that position. splice does not touch
the stored id fields of the remaining cards. -/
def removeStoryCard (index : Int) (storyCards : List StoryCard) :
    Except JsError (List StoryCard) :=
  if index < 0 ∨ (storyCards.length : Int) ≤ index then
    Except.error (JsError.error "Story card does not exist")
  else
    Except.ok (storyCards.take index.toNat ++ storyCards.drop (index.toNat + 1))

/-- updateStoryCard from Parameters.js (part_000 lines 81-86): same bounds
check as removeStoryCard, then overwrites the slot in place with a card
whose id is the index. -/
def updateStoryCard (index : Int) (keys : List String) (entry : String)
    (type : String) (storyCards : List StoryCard) :
    Except JsError (List StoryCard) :=
  if index < 0 ∨ (storyCards.length : Int) ≤ index then
    Except.error (JsError.error "Story card does not exist")
  else
    Except.ok (storyCards.set index.toNat
      { id := index.toNat, keys := keys, entry := entry, type := type })

/-- state.memory from Parameters.js (part_000 lines 29-35). The object
literal initialises context, authorsNote and frontMemory; it has no
transformedContext property, so that field is modelled as an Option that
starts at none (reading an absent JS property yields undefined). -/
structure MemoryState where
  context : String
  authorsNote : String
  frontMemory : String
  transformedContext : Option String
deriving DecidableEq, Repr

/-- The initial state.memory object of Parameters.js. -/
def initMemory : MemoryState :=
  { context := "", authorsNote := "", frontMemory := "",
    transformedContext := none }

/-- The three hook pipelines, one per hook name, as dispatched by the
switch inside safeCallHook via runInputModifier, runContextModifier and
runOutputModifier. -/
structure Hooks where
  inputModifier : Hook
  contextModifier : Hook
  outputModifier : Hook

/-- currentSide of the Emulator: the string "user" or "ai". -/
inductive Side where
  | user
  | ai
deriving DecidableEq, Repr

/-- The shared world state the emulator mutates: currentSide, the history
array, state.memory and the story-card registry. -/
structure EmState where
  currentSide : Side
  history : List HistoryEntry
  memory : MemoryState
  storyCards : List StoryCard
deriving DecidableEq, Repr

/-- The entry pushed by init in emulator.js (part_002 line 59). -/
def startEntry : HistoryEntry :=
  { mode := "start", text := "=== New Session Started ===" }

/-- The state after construction and init have completed: currentSide is
"user" (constructor), history holds exactly the session-start entry
(init line 59), memory and storyCards are the Parameters.js initialisers.
handleInput awaits the init promise before doing anything, so every turn
starts from a state reachable from this one. -/
def initState : EmState :=
  { currentSide := Side.user, history := [startEntry],
    memory := initMemory, storyCards := [] }

/-- processInput from emulator.js (part_002 lines 100-110): run the
inputModifier hook through safeCallHook and return the result. The
try/catch around it never fires because safeCallHook already catches. -/
def processInput (hooks : Hooks) (rawText : String) : String :=
  safeCallHook hooks.inputModifier rawText

/-- processOutput from emulator.js (part_002 lines 112-123): run the
outputModifier hook through safeCallHook and return the result. -/
def processOutput (hooks : Hooks) (rawText : String) : String :=
  safeCallHook hooks.outputModifier rawText

/-- The raw context rebuilt by processContext (part_002 line 127):
`history.map(h => h.text).join("\n")`. -/
def rawContextOf (history : List HistoryEntry) : String :=
  String.intercalate "\n" (history.map (fun h => h.text))

/-- What processContext produces: the raw joined context it handed to the
contextModifier hook, the hook output it returns, and the state after its
one write (state.memory.frontMemory = ""). -/
structure ContextResult where
  rawContext : String
  aiContext : String
  state : EmState
deriving DecidableEq, Repr

/-- processContext from emulator.js (part_002 lines 125-139): rebuild the
raw context as the newline join of the text of every history entry, clear
state.memory.frontMemory, run the contextModifier hook on the raw context
through safeCallHook, and return the hook output. It does not write to
state.memory.context or state.memory.transformedContext. -/
def processContext (hooks : Hooks) (s : EmState) : ContextResult :=
  let rawContext := rawContextOf s.history
  let s' : EmState :=
    { s with memory := { s.memory with frontMemory := "" } }
  let aiContext := safeCallHook hooks.contextModifier rawContext
  { rawContext := rawContext, aiContext := aiContext, state := s' }

/-- The blank-input test of handleInput (part_002 line 76):
`!text.trim()` is true exactly when the trimmed string is empty, i.e.
exactly when every character of the text is whitespace. The test is
modelled in that all-whitespace form so it stays kernel-computable. -/
def isBlankInput (text : String) : Bool :=
  text.data.all Char.isWhitespace

/-- One call to handleInput: the state afterwards, the string handed to
the contextModifier hook this turn (none when that hook did not run), and
the context argument handleInput passes to renderer_updateMainView (the
local variable context, which stays undefined, i.e. none, on ai turns and
is never passed at all on the blank-input early return). -/
structure TurnResult where
  state : EmState
  hookRawContext : Option String
  viewContext : Option String
deriving DecidableEq, Repr

/-- handleInput from emulator.js (part_002 lines 65-97). Blank text (after
trim) is an early return that changes nothing. On the user side it runs
processInput on the text, pushes an entry with an empty mode field and the
modified text, runs processContext, and sets currentSide to "ai". On the
ai side it runs processOutput, pushes an entry with an empty mode field,
and sets currentSide to "user". The mode argument (after falling back to
the selected mode) flows only into a log line, never into the pushed
entry, whose mode field is the literal empty string in both branches
(lines 84 and 89). -/
def handleInput (hooks : Hooks) (mode : String) (text : String)
    (s : EmState) : TurnResult :=
  let _effectiveMode := if mode = "" then "say" else mode
  if isBlankInput text then
    { state := s, hookRawContext := none, viewContext := none }
  else if s.currentSide = Side.user then
    let newText := processInput hooks text
    let s1 : EmState :=
      { s with history := s.history ++ [{ mode := "", text := newText }] }
    let cr := processContext hooks s1
    { state := { cr.state with currentSide := Side.ai },
      hookRawContext := some cr.rawContext,
      viewContext := some cr.aiContext }
  else
    let newText := processOutput hooks text
    { state :=
        { s with history := s.history ++ [{ mode := "", text := newText }],
                 currentSide := Side.user },
      hookRawContext := none,
      viewContext := none }

/-- A sequence of handleInput calls, each given as a mode/text pair,
applied in order (the UI serialises them). -/
def runTurns (hooks : Hooks) (turns : List (String × String))
    (s : EmState) : EmState :=
  match turns with
  | [] => s
  | (mode, text) :: rest =>
      runTurns hooks rest (handleInput hooks mode text s).state

/-- A hook whose modifier returns the object with the input text in its
text field: the identity hook of the spec scenarios. -/
def identityHook : Hook :=
  fun t => HookOutcome.returns (JSVal.vobjText (JSProp.pstr t))

/-- All three hooks set to the identity hook. -/
def identityHooks : Hooks :=
  { inputModifier := identityHook, contextModifier := identityHook,
    outputModifier := identityHook }

/-- A hook whose body always throws. -/
def throwingHook : Hook :=
  fun _ => HookOutcome.throws "boom"

/-- All three hooks set to the throwing hook. -/
def throwingHooks : Hooks :=
  { inputModifier := throwingHook, contextModifier := throwingHook,
    outputModifier := throwingHook }

/-!  Loader instrumentation (both versions of Loader.js).

A hook source unit is modelled as a list of statements. The statements
distinguished are the ones the two loaders treat specially: the trailing
call of the form modifier(text), with or without a terminating semicolon
(the regex of the current loader matches both), the rewritten statement
`return modifier(text);`, the appended capture assignment of the old
loader, and any other statement, which neither loader touches and which
does not call the modifier function. -/

/-- One statement of a hook source unit. -/
inductive Stmt where
  | callModifier (semicolon : Bool)
  | returnModifier
  | captureModifier
  | other (s : String)
deriving DecidableEq, Repr

/-- The current loader, loadModifier of the unnamed Loader.js (part_001
lines 16-20): the regex with pattern modifier, optional spacing, the
argument text, an optional semicolon and trailing whitespace, anchored at
the end of the source, replaces the trailing modifier(text) call, when
present, by `return modifier(text);`. When the source does not end in
such a call the regex does not match and the source is left unchanged. -/
def replaceCaptureTransform (src : List Stmt) : List Stmt :=
  match src.getLast? with
  | some (Stmt.callModifier _) => src.dropLast ++ [Stmt.returnModifier]
  | _ => src

/-- The old loader, loadModifier of src/emulator/Loader.js (lines 16-17):
unconditionally appends the capture assignment
`__modifierReturn = modifier(text);` after the whole hook source. -/
def appendCaptureTransform (src : List Stmt) : List Stmt :=
  src ++ [Stmt.captureModifier]

/-- The running tally of one execution of an assembled unit: how many
times the modifier function has been called, and the captured value the
sandbox function will hand back (none while nothing was captured). -/
structure ExecState where
  execCount : Nat
  captured : Option JSVal
deriving DecidableEq, Repr

/-- Execution of an instrumented hook source unit, given the behaviour of
its modifier function on the injected text. A plain trailing call runs
the modifier and discards the value; `return modifier(text);` runs it,
captures the value and stops (nothing after a return statement runs); the
appended capture assignment runs it and stores the value into the capture
slot; other statements do not call the modifier. -/
def execUnit (m : String → JSVal) (text : String) :
    List Stmt → ExecState → ExecState
  | [], st => st
  | Stmt.callModifier _ :: rest, st =>
      execUnit m text rest { st with execCount := st.execCount + 1 }
  | Stmt.returnModifier :: _, st =>
      { execCount := st.execCount + 1, captured := some (m text) }
  | Stmt.captureModifier :: rest, st =>
      execUnit m text rest
        { execCount := st.execCount + 1, captured := some (m text) }
  | Stmt.other _ :: rest, st => execUnit m text rest st

/-- Run an instrumented unit from scratch. -/
def runUnit (m : String → JSVal) (text : String) (src : List Stmt) :
    ExecState :=
  execUnit m text src { execCount := 0, captured := none }

/-! Helper lemmas shared by several claim theorems. -/

/-- A hook that throws is absorbed by safeCallHook, which falls back to
its argument. -/
theorem safeCallHook_throws (h : Hook) (arg msg : String)
    (hthrow : h arg = HookOutcome.throws msg) : safeCallHook h arg = arg := by
  unfold safeCallHook
  rw [hthrow]

/-- A valid (non-blank) turn appends exactly one history entry. -/
theorem handleInput_history_length (hooks : Hooks) (mode text : String)
    (s : EmState) (ht : isBlankInput text = false) :
    (handleInput hooks mode text s).state.history.length =
      s.history.length + 1 := by
  by_cases hs : s.currentSide = Side.user <;>
    simp [handleInput, ht, hs, processContext]

/-- A valid (non-blank) turn flips currentSide. -/
theorem handleInput_flips (hooks : Hooks) (mode text : String)
    (s : EmState) (ht : isBlankInput text = false) :
    (handleInput hooks mode text s).state.currentSide =
      (if s.currentSide = Side.user then Side.ai else Side.user) := by
  by_cases hs : s.currentSide = Side.user <;>
    simp [handleInput, ht, hs, processContext]

/-- handleInput only ever appends to the history, whatever the input. -/
theorem handleInput_history_extends (hooks : Hooks) (mode text : String)
    (s : EmState) :
    ∃ tail, (handleInput hooks mode text s).state.history =
      s.history ++ tail := by
  by_cases ht : isBlankInput text = true
  · exact ⟨[], by simp [handleInput, ht]⟩
  · by_cases hs : s.currentSide = Side.user
    · exact ⟨[{ mode := "", text := processInput hooks text }],
        by simp [handleInput, ht, hs, processContext]⟩
    · exact ⟨[{ mode := "", text := processOutput hooks text }],
        by simp [handleInput, ht, hs]⟩

/-- handleInput never writes state.memory.transformedContext. -/
theorem handleInput_transformedContext (hooks : Hooks) (mode text : String)
    (s : EmState) :
    (handleInput hooks mode text s).state.memory.transformedContext =
      s.memory.transformedContext := by
  by_cases ht : isBlankInput text = true
  · simp [handleInput, ht]
  · by_cases hs : s.currentSide = Side.user <;>
      simp [handleInput, ht, hs, processContext]

/-- Over a whole run, the history only grows by appending. -/
theorem runTurns_history_extends (hooks : Hooks)
    (turns : List (String × String)) (s : EmState) :
    ∃ tail, (runTurns hooks turns s).history = s.history ++ tail := by
  induction turns generalizing s with
  | nil => exact ⟨[], by simp [runTurns]⟩
  | cons p rest ih =>
      obtain ⟨t1, h1⟩ := handleInput_history_extends hooks p.1 p.2 s
      obtain ⟨t2, h2⟩ := ih (handleInput hooks p.1 p.2 s).state
      exact ⟨t1 ++ t2, by
        rw [runTurns, h2, h1, List.append_assoc]⟩

/-- Over a whole run, state.memory.transformedContext is never written. -/
theorem runTurns_transformedContext (hooks : Hooks)
    (turns : List (String × String)) (s : EmState) :
    (runTurns hooks turns s).memory.transformedContext =
      s.memory.transformedContext := by
  induction turns generalizing s with
  | nil => simp [runTurns]
  | cons p rest ih =>
      rw [runTurns, ih, handleInput_transformedContext]

/-- A run of valid turns appends exactly one history entry per turn. -/
theorem runTurns_history_length (hooks : Hooks)
    (turns : List (String × String)) (s : EmState)
    (hvalid : ∀ p ∈ turns, isBlankInput p.2 = false) :
    (runTurns hooks turns s).history.length =
      s.history.length + turns.length := by
  induction turns generalizing s with
  | nil => simp [runTurns]
  | cons p rest ih =>
      rw [runTurns, ih _ (fun q hq => hvalid q (List.mem_cons_of_mem _ hq)),
        handleInput_history_length hooks p.1 p.2 s (hvalid p (List.mem_cons_self _ _)),
        List.length_cons]
      omega

/-! Claim theorems. -/

/-- C5: addStoryCard rejects a structurally identical (order-sensitive)
duplicate key sequence, returning false (modelled none) and leaving the
registry unchanged; otherwise it appends exactly one card and returns the
positional index of the new card, which is the old length. Concretely,
adding keys a, b to the empty registry returns index 0, and adding the
same keys again returns false and leaves the registry unchanged. -/
theorem addStoryCard_duplicate_reject (keys : List String)
    (entry ty : String) (cards : List StoryCard) :
    ((∃ c ∈ cards, c.keys = keys) →
      addStoryCard keys entry ty cards = (none, cards)) ∧
    ((∀ c ∈ cards, c.keys ≠ keys) →
      addStoryCard keys entry ty cards =
        (some cards.length,
          cards ++ [{ id := cards.length, keys := keys,
                      entry := entry, type := ty }])) ∧
    (addStoryCard ["a", "b"] "e" "t" []).1 = some 0 ∧
    addStoryCard ["a", "b"] "e2" "t" (addStoryCard ["a", "b"] "e" "t" []).2 =
      (none, (addStoryCard ["a", "b"] "e" "t" []).2) := by
  refine ⟨?_, ?_, rfl, rfl⟩
  · intro hdup
    obtain ⟨c, hc, hkeys⟩ := hdup
    have hany : cards.any (fun card => card.keys == keys) = true := by
      rw [List.any_eq_true]
      exact ⟨c, hc, by simp [hkeys]⟩
    simp [addStoryCard, hany]
  · intro hnone
    have hany : cards.any (fun card => card.keys == keys) = false := by
      rw [List.any_eq_false]
      intro c hc
      simp [hnone c hc]
    simp [addStoryCard, hany]

/-- C5 witness: the two general branches applied at a concrete registry
holding one card with keys a, b. -/
theorem addStoryCard_duplicate_reject_witness :
    (∃ c ∈ [({ id := 0, keys := ["a", "b"], entry := "e",
               type := "t" } : StoryCard)], c.keys = ["a", "b"]) ∧
    addStoryCard ["a", "b"] "e2" "t"
        [{ id := 0, keys := ["a", "b"], entry := "e", type := "t" }] =
      (none, [{ id := 0, keys := ["a", "b"], entry := "e", type := "t" }]) :=
  ⟨⟨_, List.mem_singleton_self _, rfl⟩,
    (addStoryCard_duplicate_reject ["a", "b"] "e2" "t"
        [{ id := 0, keys := ["a", "b"], entry := "e", type := "t" }]).1
      ⟨_, List.mem_singleton_self _, rfl⟩⟩

/-- C6 counterexample: removing the card at index 0 from a two-card
registry leaves the second card with its stored id field still 1, not 0
(splice does not rewrite id fields), and an out-of-bounds index raises a
generic Error, not a RangeError. -/
theorem removeStoryCard_counterexample :
    removeStoryCard 0
        [{ id := 0, keys := ["a"], entry := "e0", type := "t" },
         { id := 1, keys := ["b"], entry := "e1", type := "t" }] =
      Except.ok [{ id := 1, keys := ["b"], entry := "e1", type := "t" }] ∧
    ([{ id := 1, keys := ["b"], entry := "e1", type := "t" }] :
        List StoryCard) ≠
      [{ id := 0, keys := ["b"], entry := "e1", type := "t" }] ∧
    removeStoryCard 5
        [{ id := 0, keys := ["a"], entry := "e0", type := "t" },
         { id := 1, keys := ["b"], entry := "e1", type := "t" }] =
      Except.error (JsError.error "Story card does not exist") := by
  refine ⟨rfl, by decide, rfl⟩

/-- C6 amended: removeStoryCard fails exactly on an out-of-bounds index,
but with a generic Error (message Story card does not exist), not a
RangeError; failure leaves the registry unchanged (the function is pure
and returns no new registry). On a valid index it deletes the card at
that position: every later card moves down one position (so its
positional id, its index in the registry, drops by one) while its stored
id field is untouched. -/
theorem removeStoryCard_spec (index : Int) (cards : List StoryCard) :
    ((index < 0 ∨ (cards.length : Int) ≤ index) →
      removeStoryCard index cards =
        Except.error (JsError.error "Story card does not exist")) ∧
    (0 ≤ index → index < (cards.length : Int) →
      ∃ cards', removeStoryCard index cards = Except.ok cards' ∧
        cards'.length + 1 = cards.length ∧
        (∀ j : Nat, j < index.toNat → cards'[j]? = cards[j]?) ∧
        (∀ j : Nat, index.toNat ≤ j → cards'[j]? = cards[j + 1]?)) := by
  constructor
  · intro hout
    simp only [removeStoryCard, if_pos hout]
  · intro h0 hlt
    have hnat : index.toNat < cards.length := by omega
    have hcond : ¬(index < 0 ∨ (cards.length : Int) ≤ index) := by omega
    refine ⟨cards.take index.toNat ++ cards.drop (index.toNat + 1),
      by simp only [removeStoryCard, if_neg hcond], ?_, ?_, ?_⟩
    · have htk : (cards.take index.toNat).length = index.toNat := by
        simp [Nat.le_of_lt hnat]
      have hdr : (cards.drop (index.toNat + 1)).length =
          cards.length - (index.toNat + 1) := by simp
      rw [List.length_append, htk, hdr]
      omega
    · intro j hj
      have hjtk : j < (cards.take index.toNat).length := by
        rw [List.length_take]; omega
      rw [List.getElem?_append, if_pos hjtk, List.getElem?_take, if_pos hj]
    · intro j hj
      have hlen : (cards.take index.toNat).length = index.toNat := by
        rw [List.length_take]; omega
      have hjtk : ¬(j < (cards.take index.toNat).length) := by
        rw [hlen]; omega
      rw [List.getElem?_append, if_neg hjtk, List.getElem?_drop, hlen]
      congr 1
      omega

/-- C6 witness: the valid-index branch applied to a concrete two-card
registry at index 0: the surviving card sits at position 0 and carries
the original entry and keys of the second card. -/
theorem removeStoryCard_spec_witness :
    ((0 : Int) ≤ 0 ∧ (0 : Int) < (2 : Int)) ∧
    (∃ cards', removeStoryCard 0
        [{ id := 0, keys := ["a"], entry := "e0", type := "t" },
         { id := 1, keys := ["b"], entry := "e1", type := "t" }] =
        Except.ok cards' ∧
      cards'.length + 1 =
        [({ id := 0, keys := ["a"], entry := "e0", type := "t" } : StoryCard),
         { id := 1, keys := ["b"], entry := "e1", type := "t" }].length ∧
      (∀ j : Nat, j < (0 : Int).toNat →
        cards'[j]? =
          [({ id := 0, keys := ["a"], entry := "e0", type := "t" } : StoryCard),
           { id := 1, keys := ["b"], entry := "e1", type := "t" }][j]?) ∧
      (∀ j : Nat, (0 : Int).toNat ≤ j →
        cards'[j]? =
          [({ id := 0, keys := ["a"], entry := "e0", type := "t" } : StoryCard),
           { id := 1, keys := ["b"], entry := "e1", type := "t" }][j + 1]?)) :=
  ⟨⟨by decide, by decide⟩,
    (removeStoryCard_spec 0
        [{ id := 0, keys := ["a"], entry := "e0", type := "t" },
         { id := 1, keys := ["b"], entry := "e1", type := "t" }]).2
      (by decide) (by decide)⟩

/-- C7: whenever the captured hook result is not an object with a
string-typed text property, safeCallHook falls back to the original
unmodified input; the concrete invalid shapes of the spec, an object with
a numeric text property, an object without a text property, and a
non-object, all fall back via captureText. No exception escapes:
safeCallHook is a total function. -/
theorem invalid_shape_identity_fallback (h : Hook) (arg : String)
    (v : JSVal) (hret : h arg = HookOutcome.returns v)
    (hshape : ∀ s : String, v ≠ JSVal.vobjText (JSProp.pstr s)) :
    safeCallHook h arg = arg ∧
    captureText (JSVal.vobjText (JSProp.pnum 42)) arg = arg ∧
    captureText (JSVal.vobjText JSProp.pundef) arg = arg ∧
    captureText (JSVal.vnum 7) arg = arg := by
  refine ⟨?_, rfl, rfl, rfl⟩
  unfold safeCallHook
  rw [hret]
  match v with
  | JSVal.vundef => rfl
  | JSVal.vnull => rfl
  | JSVal.vstr s => rfl
  | JSVal.vnum n => rfl
  | JSVal.vobjText JSProp.pundef => rfl
  | JSVal.vobjText (JSProp.pnum n) => rfl
  | JSVal.vobjText JSProp.pother => rfl
  | JSVal.vobjText (JSProp.pstr s) => exact absurd rfl (hshape s)

/-- C7 witness: a hook returning the object with text set to the number
42 leaves the original input unchanged. -/
theorem invalid_shape_identity_fallback_witness :
    ((fun _ => HookOutcome.returns (JSVal.vobjText (JSProp.pnum 42)) :
        Hook) "orig" =
      HookOutcome.returns (JSVal.vobjText (JSProp.pnum 42))) ∧
    safeCallHook
      (fun _ => HookOutcome.returns (JSVal.vobjText (JSProp.pnum 42)))
      "orig" = "orig" :=
  ⟨rfl,
    (invalid_shape_identity_fallback
      (fun _ => HookOutcome.returns (JSVal.vobjText (JSProp.pnum 42)))
      "orig" (JSVal.vobjText (JSProp.pnum 42)) rfl
      (fun s hs => by cases hs)).1⟩

/-- C8 counterexample: a modifier returning the plain string abc is not
accepted; safeCallHook falls back to the original input orig, which
differs from abc. -/
theorem plain_string_return_counterexample :
    safeCallHook (fun _ => HookOutcome.returns (JSVal.vstr "abc"))
      "orig" = "orig" ∧
    ("orig" : String) ≠ "abc" :=
  ⟨rfl, by decide⟩

/-- C8 amended: the shape check of safeCallHook accepts only an object
whose text property is a string; a modifier returning a plain string
triggers the identity fallback (a string primitive has no text property,
so the typeof test fails), while a returned object with a string text
property is accepted with that string as the effective output. -/
theorem plain_string_triggers_fallback (h : Hook) (arg s : String) :
    (h arg = HookOutcome.returns (JSVal.vstr s) →
      safeCallHook h arg = arg) ∧
    (h arg = HookOutcome.returns (JSVal.vobjText (JSProp.pstr s)) →
      safeCallHook h arg = s) := by
  constructor
  · intro hret
    unfold safeCallHook
    rw [hret]
    rfl
  · intro hret
    unfold safeCallHook
    rw [hret]
    rfl

/-- C8 witness: both branches at concrete hooks: a plain-string return
falls back, an object return is accepted. -/
theorem plain_string_triggers_fallback_witness :
    safeCallHook (fun _ => HookOutcome.returns (JSVal.vstr "abc"))
      "orig" = "orig" ∧
    safeCallHook
      (fun _ => HookOutcome.returns (JSVal.vobjText (JSProp.pstr "abc")))
      "orig" = "abc" :=
  ⟨(plain_string_triggers_fallback
      (fun _ => HookOutcome.returns (JSVal.vstr "abc")) "orig" "abc").1 rfl,
    (plain_string_triggers_fallback
      (fun _ => HookOutcome.returns (JSVal.vobjText (JSProp.pstr "abc")))
      "orig" "abc").2 rfl⟩

/-- C2: a hook failure never escapes handleInput and never stops the
turn. For every hooks assignment, a valid (non-blank) turn appends
exactly one history entry and flips currentSide; a hook invocation that
throws has the original unmodified input as its effective output; and
when the user-side input hook throws, the appended entry carries the
identity-passed text. handleInput is a total function of the model, so
no exception reaches its caller. -/
theorem hook_failure_turn_completes (hooks : Hooks) (mode text : String)
    (s : EmState) (ht : isBlankInput text = false) :
    (handleInput hooks mode text s).state.history.length =
      s.history.length + 1 ∧
    (handleInput hooks mode text s).state.currentSide =
      (if s.currentSide = Side.user then Side.ai else Side.user) ∧
    (∀ (h : Hook) (arg msg : String), h arg = HookOutcome.throws msg →
      safeCallHook h arg = arg) ∧
    (s.currentSide = Side.user →
      ∀ msg, hooks.inputModifier text = HookOutcome.throws msg →
        (handleInput hooks mode text s).state.history =
          s.history ++ [{ mode := "", text := text }]) := by
  refine ⟨handleInput_history_length hooks mode text s ht,
    handleInput_flips hooks mode text s ht,
    safeCallHook_throws, ?_⟩
  intro hs msg hthrow
  have hid : processInput hooks text = text := by
    unfold processInput
    exact safeCallHook_throws hooks.inputModifier text msg hthrow
  simp [handleInput, ht, hs, processContext, hid]

/-- C2 witness: with hooks that always throw, one turn on the fresh
session appends exactly one entry. -/
theorem hook_failure_turn_completes_witness :
    isBlankInput "hello" = false ∧
    (handleInput throwingHooks "say" "hello" initState).state.history.length =
      initState.history.length + 1 :=
  ⟨by decide,
    (hook_failure_turn_completes throwingHooks "say" "hello" initState
      (by decide)).1⟩

/-- C3 counterexample: in a fresh session with identity hooks,
handleInput with mode say and text hello leaves the history equal to the
session-start entry followed by an entry whose mode field is the empty
string, not say; in particular the history is not the single entry with
mode say and text hello that the claim states. -/
theorem user_entry_mode_counterexample :
    (handleInput identityHooks "say" "hello" initState).state.history =
      [startEntry, { mode := "", text := "hello" }] ∧
    (handleInput identityHooks "say" "hello" initState).state.history ≠
      [{ mode := "say", text := "hello" }] := by
  constructor
  · rfl
  · intro hcontra
    have h2 : ([startEntry, { mode := "", text := "hello" }] :
        List HistoryEntry) = [{ mode := "say", text := "hello" }] := by
      rw [← hcontra]; rfl
    exact absurd h2 (by decide)

/-- C3 amended: on a user turn the appended entry has the literal empty
string as its mode field, whatever mode was passed, and the inputModifier
result as its text; in the fresh-session scenario with identity hooks the
history becomes the session-start entry followed by the entry with empty
mode and text hello, currentSide becomes ai, and the context computed and
handed to the renderer is the join of both entries. -/
theorem user_entry_empty_mode (hooks : Hooks) (mode text : String)
    (s : EmState) (hs : s.currentSide = Side.user)
    (ht : isBlankInput text = false) :
    (handleInput hooks mode text s).state.history =
      s.history ++ [{ mode := "", text := processInput hooks text }] ∧
    (handleInput hooks mode text s).state.currentSide = Side.ai ∧
    (handleInput identityHooks "say" "hello" initState).state.history =
      [startEntry, { mode := "", text := "hello" }] ∧
    (handleInput identityHooks "say" "hello" initState).state.currentSide =
      Side.ai ∧
    (handleInput identityHooks "say" "hello" initState).viewContext =
      some "=== New Session Started ===\nhello" := by
  refine ⟨?_, ?_, rfl, rfl, rfl⟩
  · simp [handleInput, ht, hs, processContext]
  · simp [handleInput, ht, hs, processContext]

/-- C3 witness: the general part applied at the fresh session with the
throwing hooks (so the appended text is the identity-passed input). -/
theorem user_entry_empty_mode_witness :
    (initState.currentSide = Side.user ∧ isBlankInput "hi" = false) ∧
    (handleInput throwingHooks "do" "hi" initState).state.history =
      initState.history ++ [{ mode := "", text := processInput throwingHooks "hi" }] :=
  ⟨⟨rfl, by decide⟩,
    (user_entry_empty_mode throwingHooks "do" "hi" initState rfl
      (by decide)).1⟩

/-- C1 counterexample: after one valid turn (N = 1) the context handed to
the contextModifier hook is the join of both history entries, the
session-start entry pushed by init plus the turn entry, and differs from
the join of the first 1 entries of the history. -/
theorem context_not_join_of_first_n :
    (handleInput identityHooks "say" "hello" initState).hookRawContext =
      some "=== New Session Started ===\nhello" ∧
    rawContextOf
        ((handleInput identityHooks "say" "hello" initState).state.history.take 1) =
      "=== New Session Started ===" ∧
    ("=== New Session Started ===\nhello" : String) ≠
      "=== New Session Started ===" :=
  ⟨rfl, rfl, by decide⟩

/-- C1 amended: on every user turn the string handed to the
contextModifier hook is recomputed in full as the newline join of the
text of all history entries at that moment, including the entry just
appended for the turn input; after any sequence of N valid turns ending
on the user side, that string is the join of the entire history, which
holds N + 2 entries (the session-start entry pushed by init, the N prior
turn entries, and the entry of the current turn), not the first N
entries. -/
theorem context_full_join_every_user_turn (hooks : Hooks)
    (turns : List (String × String)) (mode text : String)
    (hvalid : ∀ p ∈ turns, isBlankInput p.2 = false)
    (ht : isBlankInput text = false)
    (hside : (runTurns hooks turns initState).currentSide = Side.user) :
    (handleInput hooks mode text (runTurns hooks turns initState)).hookRawContext =
      some (rawContextOf
        (handleInput hooks mode text (runTurns hooks turns initState)).state.history) ∧
    (handleInput hooks mode text (runTurns hooks turns initState)).state.history.length =
      turns.length + 2 := by
  constructor
  · simp [handleInput, ht, hside, processContext]
  · rw [handleInput_history_length hooks mode text _ ht,
      runTurns_history_length hooks turns initState hvalid]
    simp [initState]
    omega

/-- C1 witness: two valid turns then a third user turn with concrete
hooks: the string handed to the context hook is the join of the whole
history. -/
theorem context_full_join_every_user_turn_witness :
    (∀ p ∈ [("say", "a"), ("", "b")], isBlankInput p.2 = false) ∧
    (handleInput identityHooks "say" "c"
        (runTurns identityHooks [("say", "a"), ("", "b")] initState)).hookRawContext =
      some (rawContextOf
        (handleInput identityHooks "say" "c"
          (runTurns identityHooks [("say", "a"), ("", "b")] initState)).state.history) :=
  ⟨by decide,
    (context_full_join_every_user_turn identityHooks [("say", "a"), ("", "b")]
      "say" "c" (by decide) (by decide) rfl).1⟩

/-- C4 counterexample: after the first user turn with identity hooks the
stored field state.memory.transformedContext is still absent (none),
while that turn output of the contextModifier hook is the joined context
string; the stored field does not equal the hook output. -/
theorem transformedContext_not_stored_counterexample :
    (handleInput identityHooks "say" "hello" initState).state.memory.transformedContext =
      none ∧
    safeCallHook identityHooks.contextModifier
        (rawContextOf
          (handleInput identityHooks "say" "hello" initState).state.history) =
      "=== New Session Started ===\nhello" ∧
    (none : Option String) ≠ some "=== New Session Started ===\nhello" :=
  ⟨rfl, rfl, by decide⟩

/-- C4 amended: emulator.js (part_002) never writes
state.memory.transformedContext: over any run it keeps its initial value,
which is absent (none) from Parameters.js onward. The context-hook output
is instead recomputed each user turn from the full history join inside
processContext and returned; handleInput passes it to the renderer as the
view context. -/
theorem transformedContext_never_written (hooks : Hooks) (s : EmState) :
    (∀ turns : List (String × String),
      (runTurns hooks turns s).memory.transformedContext =
        s.memory.transformedContext) ∧
    initState.memory.transformedContext = none ∧
    (∀ mode text, s.currentSide = Side.user → isBlankInput text = false →
      (handleInput hooks mode text s).viewContext =
        some (safeCallHook hooks.contextModifier
          (rawContextOf (handleInput hooks mode text s).state.history))) := by
  refine ⟨fun turns => runTurns_transformedContext hooks turns s, rfl, ?_⟩
  intro mode text hs ht
  simp [handleInput, ht, hs, processContext]

/-- C4 witness: the run part applied at the fresh session over one
concrete turn. -/
theorem transformedContext_never_written_witness :
    (runTurns identityHooks [("say", "a")] initState).memory.transformedContext =
      initState.memory.transformedContext :=
  (transformedContext_never_written identityHooks initState).1 [("say", "a")]

/-- C9 counterexample: on a hook source unit whose last statement is the
call modifier(text) with a semicolon, the append-based loader of
src/emulator/Loader.js produces a unit that executes the modifier twice
(the original trailing call, then the appended capture assignment), not
exactly once, while the regex-replacement loader executes it once. -/
theorem appendCapture_double_execution :
    (runUnit (fun t => JSVal.vstr t) "x"
        (appendCaptureTransform
          [Stmt.other "function modifier", Stmt.callModifier true])).execCount =
      2 ∧
    (runUnit (fun t => JSVal.vstr t) "x"
        (replaceCaptureTransform
          [Stmt.other "function modifier", Stmt.callModifier true])).execCount =
      1 ∧
    (2 : Nat) ≠ 1 :=
  ⟨rfl, rfl, by decide⟩

/-- Statements that are not modifier calls do not execute the modifier. -/
theorem execUnit_others (m : String → JSVal) (text : String)
    (body rest : List Stmt) (st : ExecState)
    (hbody : ∀ q ∈ body, ∃ s, q = Stmt.other s) :
    execUnit m text (body ++ rest) st = execUnit m text rest st := by
  induction body generalizing st with
  | nil => rfl
  | cons b bs ih =>
      obtain ⟨s, hs⟩ := hbody b (List.mem_cons_self _ _)
      subst hs
      rw [List.cons_append]
      exact ih st (fun q hq => hbody q (List.mem_cons_of_mem _ hq))

/-- C9 amended: for every hook unit whose only modifier call is the
trailing one, written with or without a semicolon, the regex-replacement
loader of the unnamed Loader.js (part_001) executes the modifier exactly
once and captures that call return value, while the append-based loader
of src/emulator/Loader.js executes it twice per invocation. -/
theorem replaceCapture_single_execution (m : String → JSVal) (text : String)
    (body : List Stmt) (semicolon : Bool)
    (hbody : ∀ q ∈ body, ∃ s, q = Stmt.other s) :
    (runUnit m text (replaceCaptureTransform
        (body ++ [Stmt.callModifier semicolon]))).execCount = 1 ∧
    (runUnit m text (replaceCaptureTransform
        (body ++ [Stmt.callModifier semicolon]))).captured = some (m text) ∧
    (runUnit m text (appendCaptureTransform
        (body ++ [Stmt.callModifier semicolon]))).execCount = 2 := by
  have hlast : (body ++ [Stmt.callModifier semicolon]).getLast? =
      some (Stmt.callModifier semicolon) := by simp
  have htrans : replaceCaptureTransform (body ++ [Stmt.callModifier semicolon]) =
      body ++ [Stmt.returnModifier] := by
    unfold replaceCaptureTransform
    rw [hlast]
    simp
  have h1 : runUnit m text (body ++ [Stmt.returnModifier]) =
      { execCount := 1, captured := some (m text) } := by
    unfold runUnit
    rw [execUnit_others m text body [Stmt.returnModifier] _ hbody]
    rfl
  have h2 : runUnit m text (appendCaptureTransform
      (body ++ [Stmt.callModifier semicolon])) =
      { execCount := 2, captured := some (m text) } := by
    unfold runUnit appendCaptureTransform
    rw [List.append_assoc,
      execUnit_others m text body _ _ hbody]
    rfl
  rw [htrans, h1, h2]
  exact ⟨rfl, rfl, rfl⟩

/-- C9 witness: the general statement applied to a one-statement body
with a semicolon-terminated trailing call. -/
theorem replaceCapture_single_execution_witness :
    (∀ q ∈ [Stmt.other "function modifier"], ∃ s, q = Stmt.other s) ∧
    (runUnit (fun t => JSVal.vstr t) "x"
        (replaceCaptureTransform
          ([Stmt.other "function modifier"] ++ [Stmt.callModifier true]))).execCount =
      1 :=
  ⟨fun q hq => ⟨"function modifier", by
      rcases List.mem_singleton.mp hq with h
      rw [h]⟩,
    (replaceCapture_single_execution (fun t => JSVal.vstr t) "x"
      [Stmt.other "function modifier"] true
      (fun q hq => ⟨"function modifier", by
        rcases List.mem_singleton.mp hq with h
        rw [h]⟩)).1⟩

/-- C10: in every state reachable by any sequence of handleInput calls
after init has completed (handleInput awaits the init promise, so init
runs first), the history is non-empty and its first entry is the
session-start entry pushed by init; a valid first user turn therefore
leaves the history with two entries, its own entry being the second. -/
theorem history_head_session_start (hooks : Hooks)
    (turns : List (String × String)) :
    (runTurns hooks turns initState).history ≠ [] ∧
    (runTurns hooks turns initState).history.head? = some startEntry ∧
    (∀ mode text, isBlankInput text = false →
      (handleInput hooks mode text initState).state.history.length = 2) := by
  obtain ⟨tail, htail⟩ := runTurns_history_extends hooks turns initState
  refine ⟨?_, ?_, ?_⟩
  · rw [htail]
    simp [initState]
  · rw [htail, show initState.history = [startEntry] from rfl,
      List.head?_append_of_ne_nil]
    · rfl
    · simp
  · intro mode text ht
    rw [handleInput_history_length hooks mode text initState ht]
    rfl

/-- C10 witness: the head of the history after one concrete valid turn is
still the session-start entry, and the valid-turn branch applied at a
concrete non-blank text gives a two-entry history. -/
theorem history_head_session_start_witness :
    (runTurns identityHooks [("say", "a")] initState).history.head? =
      some startEntry ∧
    (handleInput identityHooks "say" "a" initState).state.history.length = 2 :=
  ⟨(history_head_session_start identityHooks [("say", "a")]).2.1,
    (history_head_session_start identityHooks []).2.2 "say" "a" (by decide)⟩
